import Mathlib

/-!
# Verification of the route-optimization engine (`backend/main.py`)

Shallow embedding of the core routines of the route optimizer:
`calculate_distance_matrix`, the post-solve processing of
`solve_tsp_advanced` (route extraction, closed-tour handling, statistics),
`estimate_travel_time`, `create_route_segments`, and the input validation
of the `/optimize` and `/optimize-route` endpoints.

Python floats are modelled as rationals (`ℚ`); the geodesic distance
computed by `geopy.distance.geodesic` is an external collaborator and is
passed in as an abstract function `dist : ℕ → ℕ → ℚ` giving the geodesic
distance in meters between the i-th and j-th input coordinates.  The
third-party OR-Tools solve is likewise abstracted: the node sequence that
the extraction loop walks (`Start(0)` up to, not including, the end
sentinel) is passed in as a list `path`.
-/

namespace RouteOptimizer

/-- The distance-adjustment multiplier applied inside
`calculate_distance_matrix` by the `if vehicle_type == "truck" ... elif ...`
chain (any other vehicle type gets no adjustment). -/
def vehicleMultiplier (vehicle_type : String) : ℚ :=
  if vehicle_type = "truck" then 11/10
  else if vehicle_type = "bike" then 9/10
  else if vehicle_type = "walking" then 8/10
  else 1

/-- `speed_factors.get(vehicle_type, 1.0)` from `calculate_distance_matrix`.
Computed by the source but never used afterwards; kept for fidelity. -/
def speed_factor (vehicle_type : String) : ℚ :=
  if vehicle_type = "car" then 1
  else if vehicle_type = "truck" then 8/10
  else if vehicle_type = "bike" then 3/10
  else if vehicle_type = "walking" then 1/10
  else 1

/-- `calculate_distance_matrix(locations, vehicle_type)`: the n×n matrix with
`matrix[i][j] = geodesic(i,j) * multiplier` off the diagonal and `0` on it.
`dist i j` stands for `geodesic(locations[i], locations[j]).meters`. -/
def calculate_distance_matrix (dist : ℕ → ℕ → ℚ) (n : ℕ)
    (vehicle_type : String) : List (List ℚ) :=
  (List.range n).map (fun i =>
    (List.range n).map (fun j =>
      if i ≠ j then dist i j * vehicleMultiplier vehicle_type else 0))

/-- Entry (i, j) of a matrix represented as a list of rows (0 off the grid). -/
def matrixEntry (m : List (List ℚ)) (i j : ℕ) : ℚ :=
  (m.getD i []).getD j 0

theorem calculate_distance_matrix_entry (dist : ℕ → ℕ → ℚ) (n : ℕ)
    (vt : String) (i j : ℕ) (hi : i < n) (hj : j < n) :
    matrixEntry (calculate_distance_matrix dist n vt) i j =
      if i ≠ j then dist i j * vehicleMultiplier vt else 0 := by
  simp [matrixEntry, calculate_distance_matrix, List.getD_eq_getElem?_getD,
    List.getElem?_map, List.getElem?_range, hi, hj]

/-- C2: For every `N ≥ 2` coordinate list and every vehicle profile, the matrix
returned by `calculate_distance_matrix` has `matrix[i][i] = 0` for all `i < N`
and `matrix[i][j] = matrix[j][i]` for all `i, j < N` (the geodesic distance
being symmetric). -/
theorem C2_matrix_diagonal_and_symmetry (dist : ℕ → ℕ → ℚ) (n : ℕ)
    (vt : String) (hn : 2 ≤ n) (hsymm : ∀ i j, dist i j = dist j i) :
    (∀ i, i < n →
      matrixEntry (calculate_distance_matrix dist n vt) i i = 0) ∧
    (∀ i j, i < n → j < n →
      matrixEntry (calculate_distance_matrix dist n vt) i j =
      matrixEntry (calculate_distance_matrix dist n vt) j i) := by
  constructor
  · intro i hi
    rw [calculate_distance_matrix_entry dist n vt i i hi hi]
    simp
  · intro i j hi hj
    rw [calculate_distance_matrix_entry dist n vt i j hi hj,
        calculate_distance_matrix_entry dist n vt j i hj hi, hsymm i j]
    by_cases h : i = j
    · simp [h]
    · simp [h, Ne.symm h]

/-- Closed witness for `C2_matrix_diagonal_and_symmetry` at a concrete
distance function and `n = 2`. -/
theorem C2_matrix_diagonal_and_symmetry_witness :
    (∀ i, i < 2 →
      matrixEntry (calculate_distance_matrix (fun i j => (i + j : ℚ)) 2 "car") i i = 0) ∧
    (∀ i j, i < 2 → j < 2 →
      matrixEntry (calculate_distance_matrix (fun i j => (i + j : ℚ)) 2 "car") i j =
      matrixEntry (calculate_distance_matrix (fun i j => (i + j : ℚ)) 2 "car") j i) :=
  C2_matrix_diagonal_and_symmetry (fun i j => (i + j : ℚ)) 2 "car"
    (by norm_num) (fun i j => by push_cast; ring)

/-- C3: For distinct `i, j < N`, the cost-matrix entry equals the geodesic
distance times the vehicle multiplier (car ×1.0, truck ×1.1, bike ×0.9,
walking ×0.8); hence every off-diagonal walking entry is 0.8 times the
corresponding car entry. -/
theorem C3_vehicle_multipliers (dist : ℕ → ℕ → ℚ) (n : ℕ) (i j : ℕ)
    (hi : i < n) (hj : j < n) (hij : i ≠ j) :
    matrixEntry (calculate_distance_matrix dist n "car") i j = dist i j * 1 ∧
    matrixEntry (calculate_distance_matrix dist n "truck") i j = dist i j * (11/10) ∧
    matrixEntry (calculate_distance_matrix dist n "bike") i j = dist i j * (9/10) ∧
    matrixEntry (calculate_distance_matrix dist n "walking") i j = dist i j * (8/10) ∧
    matrixEntry (calculate_distance_matrix dist n "walking") i j =
      (8/10) * matrixEntry (calculate_distance_matrix dist n "car") i j := by
  have e : ∀ vt : String, matrixEntry (calculate_distance_matrix dist n vt) i j
      = dist i j * vehicleMultiplier vt := fun vt => by
    rw [calculate_distance_matrix_entry dist n vt i j hi hj, if_pos hij]
  have hcar : vehicleMultiplier "car" = 1 := rfl
  have htruck : vehicleMultiplier "truck" = 11/10 := rfl
  have hbike : vehicleMultiplier "bike" = 9/10 := rfl
  have hwalk : vehicleMultiplier "walking" = 8/10 := rfl
  refine ⟨?_, ?_, ?_, ?_, ?_⟩ <;> simp only [e, hcar, htruck, hbike, hwalk] <;> ring

/-- Closed witness for `C3_vehicle_multipliers` at a concrete distance
function, `n = 2`, `i = 0`, `j = 1`. -/
theorem C3_vehicle_multipliers_witness :
    matrixEntry (calculate_distance_matrix (fun i j => (i + j : ℚ)) 2 "car") 0 1 =
      (fun i j => (i + j : ℚ)) 0 1 * 1 ∧
    matrixEntry (calculate_distance_matrix (fun i j => (i + j : ℚ)) 2 "truck") 0 1 =
      (fun i j => (i + j : ℚ)) 0 1 * (11/10) ∧
    matrixEntry (calculate_distance_matrix (fun i j => (i + j : ℚ)) 2 "bike") 0 1 =
      (fun i j => (i + j : ℚ)) 0 1 * (9/10) ∧
    matrixEntry (calculate_distance_matrix (fun i j => (i + j : ℚ)) 2 "walking") 0 1 =
      (fun i j => (i + j : ℚ)) 0 1 * (8/10) ∧
    matrixEntry (calculate_distance_matrix (fun i j => (i + j : ℚ)) 2 "walking") 0 1 =
      (8/10) * matrixEntry (calculate_distance_matrix (fun i j => (i + j : ℚ)) 2 "car") 0 1 :=
  C3_vehicle_multipliers (fun i j => (i + j : ℚ)) 2 0 1
    (by norm_num) (by norm_num) (by norm_num)

/-- `speeds.get(vehicle_type, 50)` inside `estimate_travel_time`:
average speeds in km/h, defaulting to 50 for unknown vehicle types. -/
def speeds (vehicle_type : String) : ℚ :=
  if vehicle_type = "car" then 50
  else if vehicle_type = "truck" then 40
  else if vehicle_type = "bike" then 15
  else if vehicle_type = "walking" then 5
  else 50

/-- `estimate_travel_time(distance_meters, vehicle_type)`:
`distance_km = distance_meters / 1000`, `time_hours = distance_km / speed_kmh`,
returned as `time_hours * 3600` seconds. -/
def estimate_travel_time (distance_meters : ℚ) (vehicle_type : String) : ℚ :=
  distance_meters / 1000 / speeds vehicle_type * 3600

/-- C10: A vehicle kind outside {car, truck, bike, walking} causes no failure:
the matrix builder applies no adjustment (producing exactly the car matrix)
and the time estimator falls back to the car speed of 50 km/h, so the
unrecognized kind behaves as a car in both functions the endpoints call. -/
theorem C10_unknown_vehicle_as_car (dist : ℕ → ℕ → ℚ) (n : ℕ) (vt : String)
    (h1 : vt ≠ "car") (h2 : vt ≠ "truck") (h3 : vt ≠ "bike")
    (h4 : vt ≠ "walking") :
    calculate_distance_matrix dist n vt = calculate_distance_matrix dist n "car" ∧
    (∀ d : ℚ, estimate_travel_time d vt = estimate_travel_time d "car") ∧
    (∀ d : ℚ, estimate_travel_time d vt = d / 1000 / 50 * 3600) := by
  refine ⟨?_, ?_, ?_⟩
  · simp [calculate_distance_matrix, vehicleMultiplier, h2, h3, h4]
  · intro d
    simp [estimate_travel_time, speeds, h1, h2, h3, h4]
  · intro d
    simp [estimate_travel_time, speeds, h1, h2, h3, h4]

/-- Closed witness for `C10_unknown_vehicle_as_car` at the unrecognized
vehicle kind "drone". -/
theorem C10_unknown_vehicle_as_car_witness :
    calculate_distance_matrix (fun i j => (i + j : ℚ)) 2 "drone" =
      calculate_distance_matrix (fun i j => (i + j : ℚ)) 2 "car" ∧
    (∀ d : ℚ, estimate_travel_time d "drone" = estimate_travel_time d "car") ∧
    (∀ d : ℚ, estimate_travel_time d "drone" = d / 1000 / 50 * 3600) :=
  C10_unknown_vehicle_as_car (fun i j => (i + j : ℚ)) 2 "drone"
    (by decide) (by decide) (by decide) (by decide)

/-! ## Post-solve processing of `solve_tsp_advanced`

The OR-Tools model construction and search are third-party black boxes; what
the repository's own code does is (a) register the strategy-weighted
`distance_callback` as the arc-cost evaluator and (b) walk the returned
solution, extracting `route`, `total_distance` and `iterations`, handling the
closed-tour flag, and computing the statistics.  The solution is abstracted
as `path`: the node sequence visited by the extraction `while` loop from
`routing.Start(0)` up to (excluding) the end sentinel.  OR-Tools' contract
for a single-vehicle model over `n` nodes makes `path` a Hamiltonian path,
i.e. a permutation of `{0, …, n-1}` starting at the depot; theorems take
that as a hypothesis. -/

/-- `total_distance` accumulated by the extraction loop: the sum of raw
matrix entries over consecutive pairs of `path` (the arc into the end
sentinel is skipped by the `if not routing.IsEnd(index)` guard). -/
def pathCost (M : ℕ → ℕ → ℚ) : List ℕ → ℚ
  | a :: b :: rest => M a b + pathCost M (b :: rest)
  | _ => 0

/-- Closed-tour handling (source: `if return_to_start and len(route) > 1`):
add the closing-edge cost `matrix[route[-1]][route[0]]` to the total, then
append `route[0]` to the route. -/
def finalize_route (m : List (List ℚ)) (return_to_start : Bool)
    (route : List ℕ) (total : ℚ) : List ℕ × ℚ :=
  if return_to_start && decide (1 < route.length) then
    (route ++ [route.headD 0],
     total + matrixEntry m (route.getLastD 0) (route.headD 0))
  else (route, total)

/-- `naive_distance`: cost of the identity order taken cyclically,
`sum(distance_matrix[i][(i + 1) % len(distance_matrix)])` over the raw
matrix. -/
def naive_distance (m : List (List ℚ)) : ℚ :=
  ((List.range m.length).map
    (fun i => matrixEntry m i ((i + 1) % m.length))).sum

/-- The fields of `OptimizationStats` relevant to the solver's functional
behaviour (`computation_time` is wall-clock and not modelled), together with
the returned route and total. -/
structure SolveResult where
  route : List ℕ
  total_distance : ℚ
  iterations : ℕ
  improvement_percentage : ℚ
deriving DecidableEq

/-- Post-solve processing of `solve_tsp_advanced`: route extraction
(`route = path`, `iterations = len(path)`, `total = pathCost`), closed-tour
handling, and statistics.  When `naive_distance` is zero the Python code
raises `ZeroDivisionError` at the improvement computation; the surrounding
`except` re-raises it as `ValueError("Failed to solve route optimization:
…")`, modelled as the `Except.error` branch. -/
def solve_tsp_post (m : List (List ℚ)) (return_to_start : Bool)
    (path : List ℕ) : Except String SolveResult :=
  let total := pathCost (matrixEntry m) path
  let iterations := path.length
  let fr := finalize_route m return_to_start path total
  let naive := naive_distance m
  if naive = 0 then
    Except.error "Failed to solve route optimization: float division by zero"
  else
    Except.ok
      { route := fr.1
        total_distance := fr.2
        iterations := iterations
        improvement_percentage := max 0 ((naive - fr.2) / naive * 100) }

theorem solve_tsp_post_eq (m : List (List ℚ)) (rts : Bool) (path : List ℕ) :
    solve_tsp_post m rts path =
      if naive_distance m = 0 then
        Except.error "Failed to solve route optimization: float division by zero"
      else
        Except.ok
          { route := (finalize_route m rts path (pathCost (matrixEntry m) path)).1
            total_distance := (finalize_route m rts path (pathCost (matrixEntry m) path)).2
            iterations := path.length
            improvement_percentage :=
              max 0 ((naive_distance m -
                (finalize_route m rts path (pathCost (matrixEntry m) path)).2) /
                  naive_distance m * 100) } := rfl

theorem headD_append_left (l l2 : List ℕ) (d : ℕ) (h : l ≠ []) :
    (l ++ l2).headD d = l.headD d := by
  cases l with
  | nil => exact absurd rfl h
  | cons a t => rfl

/-- C1: For a complete cost matrix with `N ≥ 2` and any options, the solved
route, restricted to its non-duplicated indices, is a permutation of
`{0, …, N-1}`; with the closed-tour flag set the start index is appended
after improvement (so first = last) and the closing-edge cost
`matrix[last][start]` is added to the total. -/
theorem C1_route_validity (m : List (List ℚ)) (rts : Bool) (path : List ℕ)
    (res : SolveResult) (hn : 2 ≤ m.length)
    (hperm : path.Perm (List.range m.length))
    (hok : solve_tsp_post m rts path = Except.ok res) :
    (if rts then res.route.dropLast else res.route).Perm
      (List.range m.length) ∧
    (rts = true →
      res.route = path ++ [path.headD 0] ∧
      res.route.headD 0 = res.route.getLastD 0 ∧
      res.total_distance = pathCost (matrixEntry m) path +
        matrixEntry m (path.getLastD 0) (path.headD 0)) := by
  have hlen : path.length = m.length := by simpa using hperm.length_eq
  have hpos : 1 < path.length := by omega
  have hne : path ≠ [] := by
    intro hnil
    rw [hnil] at hlen
    simp at hlen
    omega
  rw [solve_tsp_post_eq] at hok
  split at hok
  · exact Except.noConfusion hok
  · injection hok with h
    subst h
    cases rts with
    | false =>
      refine ⟨?_, fun hcontra => by simp at hcontra⟩
      simpa [finalize_route] using hperm
    | true =>
      have hguard : (true && decide (1 < path.length)) = true := by
        simp [hpos]
      refine ⟨?_, fun _ => ⟨?_, ?_, ?_⟩⟩
      · simp only [finalize_route, hguard, if_true, if_pos]
        simpa [List.dropLast_concat] using hperm
      · simp [finalize_route, hguard]
      · simp only [finalize_route, hguard, if_true, if_pos]
        rw [headD_append_left path _ 0 hne]
        simp
      · simp [finalize_route, hguard]

/-- Closed witness for `C1_route_validity`: the 2×2 matrix `[[0,1],[1,0]]`,
closed tour, extracted path `[0, 1]`. -/
theorem C1_route_validity_witness :
    ([0, 1, 0] : List ℕ).dropLast.Perm (List.range 2) ∧
    (true = true →
      ([0, 1, 0] : List ℕ) = [0, 1] ++ [([0, 1] : List ℕ).headD 0] ∧
      ([0, 1, 0] : List ℕ).headD 0 = ([0, 1, 0] : List ℕ).getLastD 0 ∧
      (2 : ℚ) = pathCost (matrixEntry [[0, 1], [1, 0]]) [0, 1] +
        matrixEntry [[0, 1], [1, 0]] (([0, 1] : List ℕ).getLastD 0)
          (([0, 1] : List ℕ).headD 0)) :=
  C1_route_validity [[0, 1], [1, 0]] true [0, 1] ⟨[0, 1, 0], 2, 2, 0⟩
    (by decide) (by decide)
    (by rw [solve_tsp_post_eq]
        norm_num [List.range_succ, naive_distance, finalize_route,
          pathCost, matrixEntry])

/-- Python's `int()` conversion: truncation toward zero. -/
def pyInt (q : ℚ) : ℤ := if 0 ≤ q then ⌊q⌋ else ⌈q⌉

/-- `distance_callback` inside `solve_tsp_advanced`: the strategy-weighted,
`int()`-truncated arc cost.  It is registered once via
`RegisterTransitCallback` and installed for all arcs by
`SetArcCostEvaluatorOfAllVehicles`, so construction and improvement consult
this same function. -/
def distance_callback (m : List (List ℚ)) (optimization_type : String)
    (from_node to_node : ℕ) : ℤ :=
  let base_distance := matrixEntry m from_node to_node
  if optimization_type = "time" then pyInt (base_distance * (12/10))
  else if optimization_type = "balanced" then pyInt (base_distance * (11/10))
  else pyInt base_distance

/-- C4 counterexample: with raw cost 3/2 and strategy "distance" the callback
returns 1, not 3/2 — Python's `int()` truncates every returned cost, so the
effective edge cost does not equal the raw matrix cost. -/
theorem C4_effective_cost_counterexample :
    (distance_callback [[0, 3/2], [3/2, 0]] "distance" 0 1 : ℚ) ≠
      matrixEntry [[0, 3/2], [3/2, 0]] 0 1 := by
  norm_num [distance_callback, matrixEntry, pyInt]

/-- C4 (amended): for a non-negative raw cost the single registered callback
returns the integer truncation of the strategy-weighted cost — `⌊raw⌋` for
"distance" (and any other strategy string), `⌊raw × 1.2⌋` for "time",
`⌊raw × 1.1⌋` for "balanced" — uniformly for every arc `(i, j)`. -/
theorem C4_effective_cost_weighting (m : List (List ℚ)) (i j : ℕ)
    (hnn : 0 ≤ matrixEntry m i j) :
    distance_callback m "distance" i j = ⌊matrixEntry m i j⌋ ∧
    distance_callback m "time" i j = ⌊matrixEntry m i j * (12/10)⌋ ∧
    distance_callback m "balanced" i j = ⌊matrixEntry m i j * (11/10)⌋ := by
  have h12 : (0:ℚ) ≤ matrixEntry m i j * (12/10) := by positivity
  have h11 : (0:ℚ) ≤ matrixEntry m i j * (11/10) := by positivity
  refine ⟨?_, ?_, ?_⟩ <;>
    simp [distance_callback, pyInt, hnn, h12, h11]

/-- Closed witness for `C4_effective_cost_weighting` at the matrix
`[[0, 3/2], [3/2, 0]]`, arc (0, 1). -/
theorem C4_effective_cost_weighting_witness :
    distance_callback [[0, 3/2], [3/2, 0]] "distance" 0 1 =
      ⌊matrixEntry [[0, 3/2], [3/2, 0]] 0 1⌋ ∧
    distance_callback [[0, 3/2], [3/2, 0]] "time" 0 1 =
      ⌊matrixEntry [[0, 3/2], [3/2, 0]] 0 1 * (12/10)⌋ ∧
    distance_callback [[0, 3/2], [3/2, 0]] "balanced" 0 1 =
      ⌊matrixEntry [[0, 3/2], [3/2, 0]] 0 1 * (11/10)⌋ :=
  C4_effective_cost_weighting [[0, 3/2], [3/2, 0]] 0 1
    (by norm_num [matrixEntry])

theorem getD_nonneg (l : List ℚ) (hl : ∀ x ∈ l, 0 ≤ x) (j : ℕ) (d : ℚ)
    (hd : 0 ≤ d) : 0 ≤ l.getD j d := by
  rw [List.getD_eq_getElem?_getD]
  cases hx : l[j]? with
  | none => simpa using hd
  | some x => simpa using hl x (List.getElem?_mem hx)

theorem matrixEntry_nonneg (m : List (List ℚ))
    (h : ∀ row ∈ m, ∀ x ∈ row, 0 ≤ x) (i j : ℕ) : 0 ≤ matrixEntry m i j := by
  unfold matrixEntry
  apply getD_nonneg _ _ _ _ le_rfl
  rw [List.getD_eq_getElem?_getD]
  cases hx : m[i]? with
  | none => simp
  | some row => simpa using h row (List.getElem?_mem hx)

theorem pathCost_nonneg (M : ℕ → ℕ → ℚ) (h : ∀ i j, 0 ≤ M i j) :
    ∀ l : List ℕ, 0 ≤ pathCost M l := by
  intro l
  induction l with
  | nil => simp [pathCost]
  | cons a t ih =>
    cases t with
    | nil => simp [pathCost]
    | cons b r => exact add_nonneg (h a b) ih

theorem naive_distance_nonneg (m : List (List ℚ))
    (hnn : ∀ i j, 0 ≤ matrixEntry m i j) : 0 ≤ naive_distance m := by
  apply List.sum_nonneg
  intro x hx
  simp only [List.mem_map] at hx
  obtain ⟨i, -, rfl⟩ := hx
  exact hnn _ _

/-- C5: On a successful solve the reported improvement percentage equals
`max 0 ((naive − total)/naive × 100)` where `naive` is the identity-cycle
cost over the same (raw) weighting as the reported total, and whenever the
matrix entries are non-negative it lies in `[0, 100]`. -/
theorem C5_improvement_percentage (m : List (List ℚ)) (rts : Bool)
    (path : List ℕ) (res : SolveResult)
    (hnn : ∀ i j, 0 ≤ matrixEntry m i j)
    (hok : solve_tsp_post m rts path = Except.ok res) :
    res.improvement_percentage =
      max 0 ((naive_distance m - res.total_distance) /
        naive_distance m * 100) ∧
    0 ≤ res.improvement_percentage ∧ res.improvement_percentage ≤ 100 := by
  rw [solve_tsp_post_eq] at hok
  split at hok
  · exact Except.noConfusion hok
  case isFalse hnaive =>
    injection hok with h
    subst h
    have htot : 0 ≤ (finalize_route m rts path
        (pathCost (matrixEntry m) path)).2 := by
      unfold finalize_route
      split
      · exact add_nonneg (pathCost_nonneg _ hnn path) (hnn _ _)
      · exact pathCost_nonneg _ hnn path
    have hpos : 0 < naive_distance m :=
      lt_of_le_of_ne (naive_distance_nonneg m hnn) (Ne.symm hnaive)
    refine ⟨rfl, le_max_left _ _, ?_⟩
    apply max_le (by norm_num)
    have h1 : (naive_distance m - (finalize_route m rts path
        (pathCost (matrixEntry m) path)).2) / naive_distance m ≤ 1 := by
      rw [div_le_one hpos]
      linarith
    calc (naive_distance m - (finalize_route m rts path
          (pathCost (matrixEntry m) path)).2) / naive_distance m * 100
        ≤ 1 * 100 := by
          apply mul_le_mul_of_nonneg_right h1 (by norm_num)
      _ = 100 := by norm_num

/-- Closed witness for `C5_improvement_percentage`: the matrix
`[[0,1],[1,0]]`, open tour, path `[0, 1]` (total 1, naive 2,
improvement 50). -/
theorem C5_improvement_percentage_witness :
    (⟨[0, 1], 1, 2, 50⟩ : SolveResult).improvement_percentage =
      max 0 ((naive_distance [[0, 1], [1, 0]] -
        (⟨[0, 1], 1, 2, 50⟩ : SolveResult).total_distance) /
          naive_distance [[0, 1], [1, 0]] * 100) ∧
    0 ≤ (⟨[0, 1], 1, 2, 50⟩ : SolveResult).improvement_percentage ∧
    (⟨[0, 1], 1, 2, 50⟩ : SolveResult).improvement_percentage ≤ 100 :=
  C5_improvement_percentage [[0, 1], [1, 0]] false [0, 1]
    ⟨[0, 1], 1, 2, 50⟩
    (matrixEntry_nonneg _ (by decide))
    (by rw [solve_tsp_post_eq]
        norm_num [List.range_succ, naive_distance, finalize_route,
          pathCost, matrixEntry])

/-- C6: at a concrete failing input — the 3-stop matrix
`[[0,1,2],[1,0,1],[2,1,0]]` with extracted path `[0,2,1]` — the solver
reports `iterations = 3`: the extraction `while` loop increments the counter
once per route node, so the reported value is the number of stops, not a
count of local-search improvement moves. -/
theorem C6_iterations_counts_route_nodes :
    solve_tsp_post [[0, 1, 2], [1, 0, 1], [2, 1, 0]] false [0, 2, 1] =
      Except.ok ⟨[0, 2, 1], 3, 3, 25⟩ := by
  rw [solve_tsp_post_eq]
  norm_num [List.range_succ, naive_distance, finalize_route,
    pathCost, matrixEntry]

theorem pathCost_zero (M : ℕ → ℕ → ℚ) (h : ∀ i j, M i j = 0) :
    ∀ l : List ℕ, pathCost M l = 0 := by
  intro l
  induction l with
  | nil => simp [pathCost]
  | cons a t ih =>
    cases t with
    | nil => simp [pathCost]
    | cons b r => simp [pathCost, h a b] at *; exact ih

/-- C9: When the naive identity-cycle cost is zero, the improvement
computation divides by zero and the solve surfaces the wrapped error instead
of a route; yet in the motivating case (all stops identical, so every matrix
entry is zero) every closed tour has cost zero, i.e. a feasible zero-cost
tour exists. -/
theorem C9_zero_naive_cost_error (m : List (List ℚ)) (rts : Bool)
    (path : List ℕ) (hnaive : naive_distance m = 0) :
    solve_tsp_post m rts path =
      Except.error "Failed to solve route optimization: float division by zero" ∧
    ((∀ i j, matrixEntry m i j = 0) → ∀ q : List ℕ,
      pathCost (matrixEntry m) q +
        matrixEntry m (q.getLastD 0) (q.headD 0) = 0) := by
  constructor
  · rw [solve_tsp_post_eq, if_pos hnaive]
  · intro hzero q
    rw [pathCost_zero _ hzero q, hzero]
    norm_num

/-- Closed witness for `C9_zero_naive_cost_error` at the all-zero 2×2 matrix
(two stops at identical coordinates). -/
theorem C9_zero_naive_cost_error_witness :
    solve_tsp_post [[0, 0], [0, 0]] true [0, 1] =
      Except.error "Failed to solve route optimization: float division by zero" ∧
    ((∀ i j, matrixEntry [[0, 0], [0, 0]] i j = 0) → ∀ q : List ℕ,
      pathCost (matrixEntry [[0, 0], [0, 0]]) q +
        matrixEntry [[0, 0], [0, 0]] (q.getLastD 0) (q.headD 0) = 0) :=
  C9_zero_naive_cost_error [[0, 0], [0, 0]] true [0, 1]
    (by norm_num [List.range_succ, naive_distance, matrixEntry])

/-! ## Segment assembly (`create_route_segments`, `estimate_travel_time`) -/

/-- The fields of the `Location` model read by the segment assembler
(`category`, `priority`, `timeWindow`, `serviceTime` are carried by the
source model but never read by `create_route_segments`). -/
structure Location where
  id : String
  address : String
  lat : ℚ
  lng : ℚ
deriving Inhabited, DecidableEq

structure RouteSegment where
  from_location : Location
  to_location : Location
  distance : ℚ
  time : ℚ
  instructions : List String
deriving Inhabited, DecidableEq

/-- Banker's rounding to an integer (round-half-to-even), which Python's
float formatting applies at the last kept digit. -/
def roundHalfEven (q : ℚ) : ℤ :=
  if q - ⌊q⌋ < 1/2 then ⌊q⌋
  else if 1/2 < q - ⌊q⌋ then ⌊q⌋ + 1
  else if ⌊q⌋ % 2 = 0 then ⌊q⌋ else ⌊q⌋ + 1

/-- The f-string `f"{v:.1f}"` for a non-negative value: the value rendered
with exactly one decimal digit. -/
def format1f (q : ℚ) : String :=
  let n := roundHalfEven (q * 10)
  toString (n / 10) ++ "." ++ toString (n % 10)

/-- `create_route_segments(locations, route_order, distance_matrix,
vehicle_type)`: one segment per consecutive pair of the route, with the raw
matrix distance, the estimated time, and the three templated instruction
strings. -/
def create_route_segments (locations : List Location)
    (route_order : List ℕ) (m : List (List ℚ)) (vehicle_type : String) :
    List RouteSegment :=
  (List.range (route_order.length - 1)).map (fun i =>
    let from_idx := route_order.getD i 0
    let to_idx := route_order.getD (i + 1) 0
    let from_location := locations.getD from_idx default
    let to_location := locations.getD to_idx default
    let distance := matrixEntry m from_idx to_idx
    let time := estimate_travel_time distance vehicle_type
    { from_location := from_location
      to_location := to_location
      distance := distance
      time := time
      instructions :=
        ["Head from " ++ from_location.address,
         "Travel " ++ format1f (distance / 1000) ++ " km",
         "Arrive at " ++ to_location.address] })

/-- C7: For a route of length `L` the assembler returns exactly `L − 1`
segments, one per consecutive pair; the k-th segment's distance is the raw
matrix entry for that pair, its time is `(distance/1000)/speed × 3600`
seconds with speeds car 50, truck 40, bike 15, walking 5 km/h, and its
instructions are exactly the three templated depart/distance/arrive
strings. -/
theorem C7_segment_assembly (locations : List Location)
    (route_order : List ℕ) (m : List (List ℚ)) (vt : String) (k : ℕ)
    (hk : k < route_order.length - 1) :
    (create_route_segments locations route_order m vt).length =
      route_order.length - 1 ∧
    ((create_route_segments locations route_order m vt).getD k default).distance =
      matrixEntry m (route_order.getD k 0) (route_order.getD (k + 1) 0) ∧
    ((create_route_segments locations route_order m vt).getD k default).time =
      ((create_route_segments locations route_order m vt).getD k default).distance /
        1000 / speeds vt * 3600 ∧
    (speeds "car" = 50 ∧ speeds "truck" = 40 ∧ speeds "bike" = 15 ∧
      speeds "walking" = 5) ∧
    ((create_route_segments locations route_order m vt).getD k default).from_location =
      locations.getD (route_order.getD k 0) default ∧
    ((create_route_segments locations route_order m vt).getD k default).to_location =
      locations.getD (route_order.getD (k + 1) 0) default ∧
    ((create_route_segments locations route_order m vt).getD k default).instructions =
      ["Head from " ++ (locations.getD (route_order.getD k 0) default).address,
       "Travel " ++ format1f (matrixEntry m (route_order.getD k 0)
         (route_order.getD (k + 1) 0) / 1000) ++ " km",
       "Arrive at " ++ (locations.getD (route_order.getD (k + 1) 0) default).address] := by
  have hget : (create_route_segments locations route_order m vt).getD k default =
      (let from_idx := route_order.getD k 0
       let to_idx := route_order.getD (k + 1) 0
       let from_location := locations.getD from_idx default
       let to_location := locations.getD to_idx default
       let distance := matrixEntry m from_idx to_idx
       let time := estimate_travel_time distance vt
       { from_location := from_location
         to_location := to_location
         distance := distance
         time := time
         instructions :=
           ["Head from " ++ from_location.address,
            "Travel " ++ format1f (distance / 1000) ++ " km",
            "Arrive at " ++ to_location.address] }) := by
    simp [create_route_segments, List.getD_eq_getElem?_getD,
      List.getElem?_map, List.getElem?_range, hk]
  refine ⟨by simp [create_route_segments], ?_, ?_, ⟨rfl, rfl, rfl, rfl⟩, ?_, ?_, ?_⟩ <;>
    rw [hget] <;> rfl

/-- Closed witness for `C7_segment_assembly`: two stops 1500 m apart, car
profile, route `[0, 1]`, first (and only) segment. -/
theorem C7_segment_assembly_witness :
    (create_route_segments [⟨"loc_0", "A", 0, 0⟩, ⟨"loc_1", "B", 0, 1⟩]
      [0, 1] [[0, 1500], [1500, 0]] "car").length = ([0, 1] : List ℕ).length - 1 ∧
    ((create_route_segments [⟨"loc_0", "A", 0, 0⟩, ⟨"loc_1", "B", 0, 1⟩]
      [0, 1] [[0, 1500], [1500, 0]] "car").getD 0 default).distance =
      matrixEntry [[0, 1500], [1500, 0]] (([0, 1] : List ℕ).getD 0 0)
        (([0, 1] : List ℕ).getD 1 0) ∧
    ((create_route_segments [⟨"loc_0", "A", 0, 0⟩, ⟨"loc_1", "B", 0, 1⟩]
      [0, 1] [[0, 1500], [1500, 0]] "car").getD 0 default).time =
      ((create_route_segments [⟨"loc_0", "A", 0, 0⟩, ⟨"loc_1", "B", 0, 1⟩]
        [0, 1] [[0, 1500], [1500, 0]] "car").getD 0 default).distance /
          1000 / speeds "car" * 3600 ∧
    (speeds "car" = 50 ∧ speeds "truck" = 40 ∧ speeds "bike" = 15 ∧
      speeds "walking" = 5) ∧
    ((create_route_segments [⟨"loc_0", "A", 0, 0⟩, ⟨"loc_1", "B", 0, 1⟩]
      [0, 1] [[0, 1500], [1500, 0]] "car").getD 0 default).from_location =
      ([⟨"loc_0", "A", 0, 0⟩, ⟨"loc_1", "B", 0, 1⟩] : List Location).getD
        (([0, 1] : List ℕ).getD 0 0) default ∧
    ((create_route_segments [⟨"loc_0", "A", 0, 0⟩, ⟨"loc_1", "B", 0, 1⟩]
      [0, 1] [[0, 1500], [1500, 0]] "car").getD 0 default).to_location =
      ([⟨"loc_0", "A", 0, 0⟩, ⟨"loc_1", "B", 0, 1⟩] : List Location).getD
        (([0, 1] : List ℕ).getD 1 0) default ∧
    ((create_route_segments [⟨"loc_0", "A", 0, 0⟩, ⟨"loc_1", "B", 0, 1⟩]
      [0, 1] [[0, 1500], [1500, 0]] "car").getD 0 default).instructions =
      ["Head from " ++ (([⟨"loc_0", "A", 0, 0⟩, ⟨"loc_1", "B", 0, 1⟩] :
          List Location).getD (([0, 1] : List ℕ).getD 0 0) default).address,
       "Travel " ++ format1f (matrixEntry [[0, 1500], [1500, 0]]
         (([0, 1] : List ℕ).getD 0 0) (([0, 1] : List ℕ).getD 1 0) / 1000) ++ " km",
       "Arrive at " ++ (([⟨"loc_0", "A", 0, 0⟩, ⟨"loc_1", "B", 0, 1⟩] :
          List Location).getD (([0, 1] : List ℕ).getD 1 0) default).address] :=
  C7_segment_assembly [⟨"loc_0", "A", 0, 0⟩, ⟨"loc_1", "B", 0, 1⟩]
    [0, 1] [[0, 1500], [1500, 0]] "car" 0 (by norm_num)

/-! ## Endpoint input validation -/

/-- The fields of `LocationInput` relevant to request validation. -/
structure LocationInput where
  address : Option String
  lat : Option ℚ
  lng : Option ℚ
deriving DecidableEq

/-- The `/optimize-route` request model (strategy/vehicle defaults are
applied by the handler via `or`-fallbacks and do not affect validation). -/
structure RouteRequest where
  locations : List LocationInput
  optimization_type : String
  vehicle_type : String
  return_to_start : Bool

/-- `/optimize` (`optimize_simple`): the `len(request.locations) < 2` check
runs first and raises the 400 client error; everything after it (matrix
construction and solving) is abstracted as `pipeline`, so a theorem holding
for every `pipeline` shows the failing path performs no matrix or solver
work. -/
def optimize_simple (pipeline : List (ℚ × ℚ) → Bool → Except String (List ℕ × ℚ))
    (locations : List (ℚ × ℚ)) (return_to_start : Bool) :
    Except String (List ℕ × ℚ) :=
  if locations.length < 2 then
    Except.error "At least 2 locations are required"
  else pipeline locations return_to_start

/-- `/optimize-route` (`optimize_route`): same leading validation; the
geocoding / matrix / solve / segment pipeline is abstracted as `pipeline`. -/
def optimize_route {α : Type} (pipeline : RouteRequest → Except String α)
    (request : RouteRequest) : Except String α :=
  if request.locations.length < 2 then
    Except.error "At least 2 locations are required"
  else pipeline request

/-- C8: A request with fewer than 2 locations fails with the client error
"At least 2 locations are required" on both `/optimize` and
`/optimize-route`, for every possible downstream pipeline — i.e. before any
cost-matrix construction or solver work. -/
theorem C8_min_two_locations (locations : List (ℚ × ℚ)) (rts : Bool)
    (request : RouteRequest) (hs : locations.length < 2)
    (hr : request.locations.length < 2) :
    (∀ pipeline, optimize_simple pipeline locations rts =
      Except.error "At least 2 locations are required") ∧
    (∀ (α : Type) (pipeline : RouteRequest → Except String α),
      optimize_route pipeline request =
        Except.error "At least 2 locations are required") := by
  constructor
  · intro pipeline
    simp [optimize_simple, hs]
  · intro α pipeline
    simp [optimize_route, hr]

/-- Closed witness for `C8_min_two_locations`: one coordinate pair on
`/optimize`, one location spec on `/optimize-route`. -/
theorem C8_min_two_locations_witness :
    (∀ pipeline, optimize_simple pipeline [((0 : ℚ), (0 : ℚ))] false =
      Except.error "At least 2 locations are required") ∧
    (∀ (α : Type) (pipeline : RouteRequest → Except String α),
      optimize_route pipeline
        ⟨[⟨none, some 0, some 0⟩], "distance", "car", false⟩ =
        Except.error "At least 2 locations are required") :=
  C8_min_two_locations [((0 : ℚ), (0 : ℚ))] false
    ⟨[⟨none, some 0, some 0⟩], "distance", "car", false⟩
    (by norm_num) (by norm_num)

end RouteOptimizer
